import Mathlib

/-!
Verification of the `server` package (a graceful-shutdown HTTP server
wrapper) against its design specification.

The Go source (src/server.go) is shallowly embedded below:

* `joinHostPort`, `New`, `Server.Addr` embed the pure configuration code.
* `Server.listenAndServe` embeds the lifecycle race of
  `(Server).ListenAndServe(ctx)`: a `select` over the serve goroutine's
  terminal error channel and the caller context's cancellation, followed
  on the cancellation branch by `(Server).shutdown()`.
* The underlying transport (`http.Server`) is the black-box collaborator:
  its behaviours (`ListenAndServe` terminal error, `Shutdown` result as a
  function of the context it receives) are inputs of the model, gathered
  in `Env`.  Which `select` branch fires first is likewise resolved by the
  environment (`Env.winner`), since it depends on runtime scheduling.
* A run is summarised by a `RunTrace`: the returned error, the context
  passed to `Shutdown` (if any), and how many times each of the two
  terminal event sources was observed.
-/

namespace GoServer

/-- Go `error` values relevant to this code, plus a catch-all.
`Option GoError` models a Go `error` variable (`none` = `nil`). -/
inductive GoError where
  /-- `http.ErrServerClosed`: returned by `http.Server.ListenAndServe`
  after `Shutdown` or `Close` has been called on the server. -/
  | errServerClosed
  /-- `context.DeadlineExceeded`: what `ctx.Err()` yields once a
  `context.WithTimeout` deadline has elapsed. -/
  | deadlineExceeded
  /-- A bind failure such as `listen tcp 0.0.0.0:80: address already in use`. -/
  | addrInUse
  /-- Any other error value, tagged by its message. -/
  | other (msg : String)
deriving DecidableEq, Repr

/-- A Go `context.Context`, as far as this code inspects one: either the
root `context.Background()`, a timeout-bounded child of a parent context,
or an arbitrary caller-supplied context identified abstractly. -/
inductive Ctx where
  /-- `context.Background()`. -/
  | background
  /-- `context.WithTimeout(parent, seconds * time.Second)`. -/
  | withTimeout (parent : Ctx) (seconds : Nat)
  /-- An opaque context supplied by the caller of `ListenAndServe`. -/
  | caller (id : Nat)
deriving DecidableEq, Repr

/-- An opaque `http.Handler` capability; only its identity matters here. -/
structure Handler where
  id : Nat
deriving DecidableEq, Repr

/-- `time.Second` in nanoseconds (Go `time.Duration` units). -/
def timeSecond : Nat := 1000000000

/-- The configuration fields of `http.Server` that `New` sets.  Durations
are in nanoseconds, as Go `time.Duration` values. -/
structure HttpServer where
  Addr : String
  Handler : Handler
  ReadTimeout : Nat
  WriteTimeout : Nat
  IdleTimeout : Nat
deriving DecidableEq, Repr

/-- The `server.Server` struct: a wrapper holding one `*http.Server`. -/
structure Server where
  s : HttpServer
deriving DecidableEq, Repr

/-- `net.JoinHostPort(host, port)`: brackets the host when it contains a
colon (IPv6 literal), otherwise concatenates with a colon. -/
def joinHostPort (host port : String) : String :=
  if host.contains ':' then "[" ++ host ++ "]:" ++ port
  else host ++ ":" ++ port

/-- `New(port, h)`: builds a `Server` listening on `0.0.0.0:PORT` with
read, write and idle timeouts of 5 seconds each.  Pure value assembly. -/
def New (port : String) (h : Handler) : Server :=
  { s := { Addr := joinHostPort "0.0.0.0" port
           Handler := h
           ReadTimeout := 5 * timeSecond
           WriteTimeout := 5 * timeSecond
           IdleTimeout := 5 * timeSecond } }

/-- `(Server).Addr()`: returns the configured bind address string. -/
def Server.Addr (sv : Server) : String := sv.s.Addr

/-- Which branch of the `select` in `ListenAndServe` fires first.  When
both channels are ready simultaneously Go picks one at random, so the
winner is resolved by the environment, not by the program. -/
inductive Winner where
  /-- `case err := <-errC`: the serve goroutine's terminal error arrives
  first. -/
  | serve
  /-- `case <-ctx.Done()`: the caller's cancellation fires first. -/
  | cancel
deriving DecidableEq, Repr

/-- The environment of one run: the behaviour of the black-box transport
(`http.Server`) and the resolution of the `select` race.

`serveErr` is the terminal error the serve goroutine writes to `errC`;
`http.Server.ListenAndServe` always returns a non-nil error, so it is a
`GoError`, not an `Option GoError`.  `srvShutdown` is the behaviour of
`(*http.Server).Shutdown` as a function of the context it is given. -/
structure Env where
  winner : Winner
  serveErr : GoError
  srvShutdown : Ctx → Option GoError

/-- The observable summary of one `ListenAndServe` run. -/
structure RunTrace where
  /-- The error value `ListenAndServe` returns (`none` = `nil`). -/
  ret : Option GoError
  /-- `some c` iff `(*http.Server).Shutdown` was invoked, with context `c`. -/
  shutdownCtxUsed : Option Ctx
  /-- How many times the serve goroutine's channel `errC` was received from. -/
  serveObs : Nat
  /-- How many times the caller context's `Done` channel was observed. -/
  cancelObs : Nat
deriving DecidableEq, Repr

/-- The fresh context `(Server).shutdown` builds:
`context.WithTimeout(context.Background(), 10*time.Second)`. -/
def shutdownCtx : Ctx := Ctx.withTimeout Ctx.background 10

/-- `(Server).shutdown()`: creates a fresh 10-second timeout context from
`context.Background()` and returns `s.s.Shutdown(ctx)` verbatim. -/
def Server.shutdown (_sv : Server) (e : Env) : Option GoError :=
  e.srvShutdown shutdownCtx

/-- `(Server).ListenAndServe(ctx)`: starts the serve goroutine, then
`select`s over `ctx.Done()` and the error channel.  On cancellation it
returns `s.shutdown()`; on serve-loop termination it returns `nil` when
the error is `http.ErrServerClosed` and the error itself otherwise. -/
def Server.listenAndServe (sv : Server) (_ctx : Ctx) (e : Env) : RunTrace :=
  match e.winner with
  | Winner.cancel =>
      { ret := sv.shutdown e
        shutdownCtxUsed := some shutdownCtx
        serveObs := 0
        cancelObs := 1 }
  | Winner.serve =>
      { ret := if e.serveErr = GoError.errServerClosed then none else some e.serveErr
        shutdownCtxUsed := none
        serveObs := 1
        cancelObs := 0 }

/-- Modelled from the spec: the drain contract of the black-box transport
(`(*http.Server).Shutdown` is library code, not part of src/).  With
`completes = true` all in-flight work finishes before the context's
deadline and `Shutdown` yields `nil`; with `completes = false` the
deadline elapses first and `Shutdown` yields the context's error,
`context.DeadlineExceeded`. -/
def DrainContract (e : Env) (completes : Bool) : Prop :=
  ∀ c : Ctx, e.srvShutdown c =
    if completes then none else some GoError.deadlineExceeded

end GoServer

namespace GoServer

/-- The wildcard host string holds no colon, so `net.JoinHostPort` does
not bracket it. -/
theorem wildcard_no_colon : "0.0.0.0".contains ':' = false := by
  rw [Bool.eq_false_iff]
  intro h
  have hmem := (String.contains_iff _ _).mp h
  revert hmem
  decide

/-- C8: For every port passed to `New`, `Addr()` returns the wildcard
interface `0.0.0.0` concatenated (via a colon) with that exact port;
`Addr` is a pure total function of the configuration. -/
theorem c8_addr_wildcard_port (port : String) (h : Handler) :
    (New port h).Addr = "0.0.0.0:" ++ port := by
  simp [Server.Addr, New, joinHostPort, wildcard_no_colon]

/-- C9: `New(port, handler)` is pure value assembly that always succeeds:
it binds to all interfaces on the given port, installs the given handler,
and fixes read, write and idle timeouts at 5 seconds each. -/
theorem c9_new_config (port : String) (h : Handler) :
    (New port h).s.Addr = "0.0.0.0:" ++ port ∧
    (New port h).s.Handler = h ∧
    (New port h).s.ReadTimeout = 5 * timeSecond ∧
    (New port h).s.WriteTimeout = 5 * timeSecond ∧
    (New port h).s.IdleTimeout = 5 * timeSecond := by
  refine ⟨?_, rfl, rfl, rfl, rfl⟩
  simp [New, joinHostPort, wildcard_no_colon]

/-- C1 counterexample: a run in which the serve loop terminates first with
the generic clean-closure signal `http.ErrServerClosed` although this run
never initiated a shutdown (Shutdown is never called and cancellation is
never observed); `ListenAndServe` still classifies it as CleanExit by
returning `nil`.  The classification is the comparison
`err != http.ErrServerClosed`, not an explicitly tracked flag. -/
theorem c1_counterexample :
    (Server.listenAndServe (New "8080" ⟨0⟩) (Ctx.caller 0)
      { winner := Winner.serve
        serveErr := GoError.errServerClosed
        srvShutdown := fun _ => none }).shutdownCtxUsed = none ∧
    (Server.listenAndServe (New "8080" ⟨0⟩) (Ctx.caller 0)
      { winner := Winner.serve
        serveErr := GoError.errServerClosed
        srvShutdown := fun _ => none }).cancelObs = 0 ∧
    (Server.listenAndServe (New "8080" ⟨0⟩) (Ctx.caller 0)
      { winner := Winner.serve
        serveErr := GoError.errServerClosed
        srvShutdown := fun _ => none }).ret = none :=
  ⟨rfl, rfl, rfl⟩

/-- C1 (amended): when the serve loop terminates first, `ListenAndServe`
classifies the termination as CleanExit exactly when the terminal error
equals the server's generic clean-closure signal `http.ErrServerClosed`,
whether or not this run initiated a shutdown; no explicit flag is kept,
and on this path Shutdown is never invoked. -/
theorem c1_amended_closed_marker (sv : Server) (ctx : Ctx) (e : Env)
    (hw : e.winner = Winner.serve) :
    ((sv.listenAndServe ctx e).ret = none ↔
      e.serveErr = GoError.errServerClosed) ∧
    (sv.listenAndServe ctx e).shutdownCtxUsed = none := by
  obtain ⟨w, se, f⟩ := e
  have hw' : w = Winner.serve := hw
  subst hw'
  refine ⟨?_, rfl⟩
  by_cases hse : se = GoError.errServerClosed
  · simp [Server.listenAndServe, hse]
  · simp [Server.listenAndServe, hse]

/-- Witness for the amended C1 at a concrete input: a bind failure is not
the clean-closure marker, hence is not classified as CleanExit. -/
theorem c1_amended_closed_marker_witness :
    ((Server.listenAndServe (New "80" ⟨0⟩) Ctx.background
        { winner := Winner.serve
          serveErr := GoError.addrInUse
          srvShutdown := fun _ => none }).ret = none ↔
      GoError.addrInUse = GoError.errServerClosed) ∧
    (Server.listenAndServe (New "80" ⟨0⟩) Ctx.background
        { winner := Winner.serve
          serveErr := GoError.addrInUse
          srvShutdown := fun _ => none }).shutdownCtxUsed = none :=
  c1_amended_closed_marker _ _ _ rfl

/-- C2: in any run where cancellation fires first and the black-box drain
obeys the spec's contract, the returned value is `nil` (CleanExit) or
`context.DeadlineExceeded` (ShutdownTimeout) — never a serve-loop fault. -/
theorem c2_cancel_never_abnormal (sv : Server) (ctx : Ctx) (e : Env)
    (b : Bool) (hw : e.winner = Winner.cancel) (hd : DrainContract e b) :
    (sv.listenAndServe ctx e).ret = none ∨
    (sv.listenAndServe ctx e).ret = some GoError.deadlineExceeded := by
  obtain ⟨w, se, f⟩ := e
  have hw' : w = Winner.cancel := hw
  subst hw'
  have hres := hd shutdownCtx
  cases b
  · right
    simpa [Server.listenAndServe, Server.shutdown] using hres
  · left
    simpa [Server.listenAndServe, Server.shutdown] using hres

/-- Witness for C2 at a concrete input: cancellation first, drain
completes in time, result is CleanExit or ShutdownTimeout. -/
theorem c2_cancel_never_abnormal_witness :
    (Server.listenAndServe (New "8080" ⟨0⟩) (Ctx.caller 1)
      { winner := Winner.cancel
        serveErr := GoError.other "unused"
        srvShutdown := fun _ => none }).ret = none ∨
    (Server.listenAndServe (New "8080" ⟨0⟩) (Ctx.caller 1)
      { winner := Winner.cancel
        serveErr := GoError.other "unused"
        srvShutdown := fun _ => none }).ret =
      some GoError.deadlineExceeded :=
  c2_cancel_never_abnormal _ _ _ true rfl (fun _ => rfl)

/-- C3: when cancellation wins, the drain is bounded by a fresh context
built as `context.WithTimeout(context.Background(), 10*time.Second)`;
the context handed to Shutdown never derives from the caller's (already
fired) context, and the whole run is independent of which caller context
was supplied. -/
theorem c3_fresh_ten_second_deadline (sv : Server) (e : Env)
    (hw : e.winner = Winner.cancel) :
    (∀ ctx : Ctx, (sv.listenAndServe ctx e).shutdownCtxUsed =
      some (Ctx.withTimeout Ctx.background 10)) ∧
    (∀ ctx₁ ctx₂ : Ctx, sv.listenAndServe ctx₁ e = sv.listenAndServe ctx₂ e) := by
  obtain ⟨w, se, f⟩ := e
  have hw' : w = Winner.cancel := hw
  subst hw'
  exact ⟨fun _ => rfl, fun _ _ => rfl⟩

/-- Witness for C3 at a concrete input. -/
theorem c3_fresh_ten_second_deadline_witness :
    (Server.listenAndServe (New "9090" ⟨3⟩) (Ctx.caller 7)
      { winner := Winner.cancel
        serveErr := GoError.other "unused"
        srvShutdown := fun _ => none }).shutdownCtxUsed =
      some (Ctx.withTimeout Ctx.background 10) :=
  (c3_fresh_ten_second_deadline (New "9090" ⟨3⟩)
    { winner := Winner.cancel
      serveErr := GoError.other "unused"
      srvShutdown := fun _ => none } rfl).1 (Ctx.caller 7)

/-- C4: under the spec's drain contract, if all in-flight work completes
before the deadline the run returns `nil` (CleanExit); if the deadline
elapses first it returns `context.DeadlineExceeded` (ShutdownTimeout),
a value distinct from the CleanExit value, so the caller can tell the
two apart. -/
theorem c4_drain_outcomes (sv : Server) (ctx : Ctx) (e : Env)
    (hw : e.winner = Winner.cancel) :
    (DrainContract e true → (sv.listenAndServe ctx e).ret = none) ∧
    (DrainContract e false →
      (sv.listenAndServe ctx e).ret = some GoError.deadlineExceeded) ∧
    some GoError.deadlineExceeded ≠ (none : Option GoError) := by
  obtain ⟨w, se, f⟩ := e
  have hw' : w = Winner.cancel := hw
  subst hw'
  refine ⟨fun hd => ?_, fun hd => ?_, by simp⟩
  · simpa [Server.listenAndServe, Server.shutdown] using hd shutdownCtx
  · simpa [Server.listenAndServe, Server.shutdown] using hd shutdownCtx

/-- Witness for C4 at a concrete input: drain completes in time and the
run returns CleanExit. -/
theorem c4_drain_outcomes_witness :
    (Server.listenAndServe (New "8080" ⟨0⟩) (Ctx.caller 2)
      { winner := Winner.cancel
        serveErr := GoError.other "unused"
        srvShutdown := fun _ => none }).ret = none :=
  (c4_drain_outcomes (New "8080" ⟨0⟩) (Ctx.caller 2)
    { winner := Winner.cancel
      serveErr := GoError.other "unused"
      srvShutdown := fun _ => none } rfl).1 (fun _ => rfl)

/-- C5: when the serve loop terminates first with any error other than
the clean-shutdown marker (e.g. a bind failure), the run returns that
error as a non-nil cause, never calls Shutdown, and never observes the
cancellation signal. -/
theorem c5_abnormal_immediate (sv : Server) (ctx : Ctx) (e : Env)
    (hw : e.winner = Winner.serve)
    (he : e.serveErr ≠ GoError.errServerClosed) :
    (sv.listenAndServe ctx e).ret = some e.serveErr ∧
    (sv.listenAndServe ctx e).ret ≠ none ∧
    (sv.listenAndServe ctx e).shutdownCtxUsed = none ∧
    (sv.listenAndServe ctx e).cancelObs = 0 := by
  obtain ⟨w, se, f⟩ := e
  have hw' : w = Winner.serve := hw
  subst hw'
  have he' : se ≠ GoError.errServerClosed := he
  refine ⟨?_, ?_, rfl, rfl⟩
  · simp [Server.listenAndServe, he']
  · simp [Server.listenAndServe, he']

/-- Witness for C5 at a concrete input: the port is already occupied by
another listener and the run reports the bind failure immediately. -/
theorem c5_abnormal_immediate_witness :
    (Server.listenAndServe (New "80" ⟨0⟩) (Ctx.caller 4)
      { winner := Winner.serve
        serveErr := GoError.addrInUse
        srvShutdown := fun _ => none }).ret = some GoError.addrInUse ∧
    (Server.listenAndServe (New "80" ⟨0⟩) (Ctx.caller 4)
      { winner := Winner.serve
        serveErr := GoError.addrInUse
        srvShutdown := fun _ => none }).ret ≠ none ∧
    (Server.listenAndServe (New "80" ⟨0⟩) (Ctx.caller 4)
      { winner := Winner.serve
        serveErr := GoError.addrInUse
        srvShutdown := fun _ => none }).shutdownCtxUsed = none ∧
    (Server.listenAndServe (New "80" ⟨0⟩) (Ctx.caller 4)
      { winner := Winner.serve
        serveErr := GoError.addrInUse
        srvShutdown := fun _ => none }).cancelObs = 0 :=
  c5_abnormal_immediate _ _ _ rfl (by simp)

/-- C6: the race is first-event-wins: each terminal source is observed at
most once per run, the losing side is not observed at all, and two runs
that differ only in the terminal value later delivered by the abandoned
serve loop produce identical traces when cancellation won. -/
theorem c6_first_event_wins (sv : Server) (ctx : Ctx) (e : Env) :
    (sv.listenAndServe ctx e).serveObs ≤ 1 ∧
    (sv.listenAndServe ctx e).cancelObs ≤ 1 ∧
    (e.winner = Winner.cancel → (sv.listenAndServe ctx e).serveObs = 0) ∧
    (e.winner = Winner.serve → (sv.listenAndServe ctx e).cancelObs = 0) ∧
    (∀ e' : Env, e.winner = Winner.cancel → e'.winner = Winner.cancel →
      e'.srvShutdown = e.srvShutdown →
      sv.listenAndServe ctx e' = sv.listenAndServe ctx e) := by
  obtain ⟨w, se, f⟩ := e
  cases w
  · refine ⟨by simp [Server.listenAndServe], by simp [Server.listenAndServe],
      fun hww => absurd hww (by simp), fun _ => rfl,
      fun e' hww _ _ => absurd hww (by simp)⟩
  · refine ⟨by simp [Server.listenAndServe], by simp [Server.listenAndServe],
      fun _ => rfl, fun hww => absurd hww (by simp), ?_⟩
    intro e' _ hww' hf
    obtain ⟨w', se', f'⟩ := e'
    have hww'' : w' = Winner.cancel := hww'
    subst hww''
    have hf' : f' = f := hf
    subst hf'
    rfl

/-- Witness for C6 at concrete inputs: two cancellation-won runs whose
abandoned serve loops would have delivered different terminal values have
identical traces. -/
theorem c6_first_event_wins_witness :
    Server.listenAndServe (New "8080" ⟨0⟩) (Ctx.caller 5)
      { winner := Winner.cancel
        serveErr := GoError.addrInUse
        srvShutdown := fun _ => none } =
    Server.listenAndServe (New "8080" ⟨0⟩) (Ctx.caller 5)
      { winner := Winner.cancel
        serveErr := GoError.errServerClosed
        srvShutdown := fun _ => none } :=
  (c6_first_event_wins (New "8080" ⟨0⟩) (Ctx.caller 5)
    { winner := Winner.cancel
      serveErr := GoError.errServerClosed
      srvShutdown := fun _ => none }).2.2.2.2
    { winner := Winner.cancel
      serveErr := GoError.addrInUse
      srvShutdown := fun _ => none } rfl rfl rfl

/-- C7: every run is resolved into exactly one trace carrying exactly one
returned value (the run is a total function of its environment, so no
fault escapes its boundary unresolved), and over the whole run exactly
one terminal event is observed — none after the outcome is produced. -/
theorem c7_exactly_one_outcome (sv : Server) (ctx : Ctx) (e : Env) :
    (∃! t : RunTrace, sv.listenAndServe ctx e = t) ∧
    (sv.listenAndServe ctx e).serveObs +
      (sv.listenAndServe ctx e).cancelObs = 1 := by
  refine ⟨⟨sv.listenAndServe ctx e, rfl, fun y hy => hy.symm⟩, ?_⟩
  obtain ⟨w, se, f⟩ := e
  cases w
  · simp [Server.listenAndServe]
  · simp [Server.listenAndServe]

/-- C10: on the cancellation path `ListenAndServe` returns the result of
`s.s.Shutdown` verbatim, with no classification at all; in particular a
Shutdown failure other than deadline expiry (such as a listener-close
error) reaches the caller unchanged, so the returned value is not
confined to `nil`, `context.DeadlineExceeded`, or a serve-loop fault. -/
theorem c10_shutdown_result_verbatim (sv : Server) (ctx : Ctx) (e : Env)
    (hw : e.winner = Winner.cancel) :
    (sv.listenAndServe ctx e).ret = e.srvShutdown shutdownCtx ∧
    (∃ e' : Env, e'.winner = Winner.cancel ∧
      (sv.listenAndServe ctx e').ret ≠ none ∧
      (sv.listenAndServe ctx e').ret ≠ some GoError.deadlineExceeded) := by
  obtain ⟨w, se, f⟩ := e
  have hw' : w = Winner.cancel := hw
  subst hw'
  refine ⟨rfl, ?_⟩
  refine ⟨{ winner := Winner.cancel
            serveErr := GoError.other "unused"
            srvShutdown := fun _ =>
              some (GoError.other "close tcp 0.0.0.0:8080: listener error") },
    rfl, ?_, ?_⟩
  · simp [Server.listenAndServe, Server.shutdown]
  · simp [Server.listenAndServe, Server.shutdown]

/-- Witness for C10 at a concrete input: a listener-close failure during
Shutdown is surfaced unchanged. -/
theorem c10_shutdown_result_verbatim_witness :
    (Server.listenAndServe (New "8080" ⟨0⟩) (Ctx.caller 6)
      { winner := Winner.cancel
        serveErr := GoError.other "unused"
        srvShutdown := fun _ =>
          some (GoError.other "close tcp 0.0.0.0:8080: listener error") }).ret =
    (fun _ : Ctx =>
        some (GoError.other "close tcp 0.0.0.0:8080: listener error"))
      shutdownCtx :=
  (c10_shutdown_result_verbatim (New "8080" ⟨0⟩) (Ctx.caller 6)
    { winner := Winner.cancel
      serveErr := GoError.other "unused"
      srvShutdown := fun _ =>
        some (GoError.other "close tcp 0.0.0.0:8080: listener error") } rfl).1

end GoServer
